import Mathlib

/-!
Shallow embedding of `custom_components/stateful_scenes/StatefulScenes.py`
(class `Scene`: the value comparators, `check_state`, `check_all_states`,
`update_callback` / `store_entity_state`, and `turn_on`), together with
theorems settling the specification claims about them.

Python runtime values that flow through the comparators (YAML scene
attributes and Home Assistant state/attribute values) are modelled by the
recursive type `Value`: strings, numbers (as rationals, covering Python
ints and floats), `None`, lists/tuples (both as `Value.list`), and dicts
(as ordered association lists, mirroring insertion-ordered Python dicts).
A Python function that can raise is modelled with an `Option` result,
`none` standing for a propagated exception.
-/

set_option maxHeartbeats 1000000

namespace StatefulScenes

/-- A Python value as used by the comparison/aggregation engine. -/
inductive Value where
  | str : String → Value
  | num : Rat → Value
  | null : Value
  | list : List Value → Value
  | dict : List (String × Value) → Value

/-- Python `d[k]` / `k in d` lookup on an association list: first binding wins
(Python dicts have unique keys; the embedding keeps the access order). -/
def alookup {α : Type} (k : String) : List (String × α) → Option α
  | [] => none
  | (k', v) :: rest => if k' == k then some v else alookup k rest

/-- Python `d[k] = v` on an association list: overwrite in place if the key
exists, else append (Python dicts keep insertion order). -/
def setKey {α : Type} (k : String) (v : α) : List (String × α) → List (String × α)
  | [] => [(k, v)]
  | (k', v') :: rest => if k' == k then (k, v) :: rest else (k', v') :: setKey k v rest

/-- Python `==` for the value shapes that reach the final fallthrough of
`Scene.compare_values` (both-dict, both-list and both-number pairs are
intercepted by the earlier `isinstance` branches): equal strings and
`None == None` are true, every cross-type comparison is false. -/
def pyEq : Value → Value → Bool
  | .str a, .str b => a == b
  | .null, .null => true
  | _, _ => false

/-- `Scene.compare_numbers`: `abs(number1 - number2) <= self.number_tolerance`. -/
def compare_numbers (tol : Rat) (n1 n2 : Rat) : Bool :=
  decide (|n1 - n2| ≤ tol)

mutual

/-- `Scene.compare_values`: dispatch on the `isinstance` checks —
dict/dict to `compare_dicts`, list-or-tuple/list-or-tuple to
`compare_lists`, number/number to `compare_numbers`, otherwise Python `==`. -/
def compare_values (tol : Rat) (a b : Value) : Bool :=
  match a, b with
  | .dict d1, .dict d2 => compare_dicts tol d1 d2
  | .list l1, .list l2 => compare_lists tol l1 l2
  | .num n1, .num n2 => compare_numbers tol n1 n2
  | a, b => pyEq a b

/-- `Scene.compare_dicts`: every key of `dict1` must be present in `dict2`
with a `compare_values`-equal value; keys only in `dict2` are ignored. -/
def compare_dicts (tol : Rat) (d1 d2 : List (String × Value)) : Bool :=
  match d1 with
  | [] => true
  | (k, v) :: rest =>
    match alookup k d2 with
    | none => false
    | some v2 => compare_values tol v v2 && compare_dicts tol rest d2

/-- `Scene.compare_lists`: `zip` the two lists (stopping at the shorter one)
and require `compare_values` on every pair. -/
def compare_lists (tol : Rat) (l1 l2 : List Value) : Bool :=
  match l1, l2 with
  | [], _ => true
  | _ :: _, [] => true
  | v1 :: t1, v2 :: t2 => compare_values tol v1 v2 && compare_lists tol t1 t2

end

/-- Python `color is None`. -/
def isNull : Value → Bool
  | .null => true
  | _ => false

/-- Python `isinstance(c, list) or isinstance(c, tuple)`. -/
def isSeq : Value → Bool
  | .list _ => true
  | _ => false

/-- What Python `zip` can iterate: lists/tuples yield their elements, strings
yield their characters (as 1-character strings), dicts yield their keys;
numbers and `None` are not iterable, so `zip` raises `TypeError` (`none`). -/
def iterElems : Value → Option (List Value)
  | .list l => some l
  | .str s => some (s.toList.map (fun c => Value.str (String.mk [c])))
  | .dict d => some (d.map (fun kv => Value.str kv.1))
  | _ => none

/-- Python `component1 - component2`: defined only on numbers, a `TypeError`
(`none`) on anything else. -/
def subVal : Value → Value → Option Rat
  | .num a, .num b => some (a - b)
  | _, _ => none

/-- The loop body of `Scene.compare_colors` over the zipped component pairs:
`if abs(component1 - component2) * factor > self.number_tolerance: return False`. -/
def colorLoop (tol : Rat) (factor : Rat) : List (Value × Value) → Option Bool
  | [] => some true
  | (a, b) :: rest =>
    match subVal a b with
    | none => none
    | some d => if |d| * factor > tol then some false else colorLoop tol factor rest

/-- `Scene.compare_colors`: both-`None` true, exactly-one-`None` false; then
`return False` only when NEITHER side is a list/tuple (the guard is
`not seq(color1) and not seq(color2)` in the source); otherwise zip the two
sides and compare components with the tolerance, scaling the delta by 100
for xy colors. A non-iterable side or a non-numeric component makes the
zip/subtraction raise `TypeError`, modelled as `none`. -/
def compare_colors (tol : Rat) (color1 color2 : Value) (is_xy_color : Bool) : Option Bool :=
  if isNull color1 && isNull color2 then some true
  else if isNull color1 || isNull color2 then some false
  else if !isSeq color1 && !isSeq color2 then some false
  else
    match iterElems color1, iterElems color2 with
    | some l1, some l2 => colorLoop tol (if is_xy_color then 100 else 1) (l1.zip l2)
    | _, _ => none

/-- The tri-state result of `Scene.check_state`: Python `True` / `False` / `None`. -/
inductive Tri where
  | matched
  | notMatched
  | unknown
deriving DecidableEq

/-- The Python value a `Tri` is stored as in `self.states`. -/
def Tri.toPy : Tri → Option Bool
  | .matched => some true
  | .notMatched => some false
  | .unknown => none

/-- Python truthiness of a stored `self.states` entry: `not x` is true for
`False` and for `None`, false only for `True`. -/
def pyFalsy : Option Bool → Bool
  | some true => false
  | _ => true

/-- Modelled from the spec: the per-domain attribute allow-list
`ATTRIBUTES_TO_CHECK` is imported from `const.py`, which is not part of the
provided source; the table below is the spec's example configuration
(light/climate/switch/cover/media_player). -/
def ATTRIBUTES_TO_CHECK : List (String × List String) :=
  [("light", ["brightness", "color_temp", "rgb_color", "xy_color", "hs_color", "effect"]),
   ("climate", ["temperature", "hvac_mode"]),
   ("switch", []),
   ("cover", ["current_position"]),
   ("media_player", ["volume_level", "source"])]

/-- A Home Assistant `State` object as seen by the `Scene` class: the state
value, the attribute mapping, and the entity's domain. -/
structure Obs where
  state : Value
  attributes : List (String × Value)
  domain : String

/-- Python `attribute.endswith(t)`, as a suffix test on the character list
(attribute names are plain ASCII identifiers). -/
def strEndsWith (s t : String) : Bool :=
  t.toList.isSuffixOf s.toList

/-- The attribute loop of `Scene.check_state`: for each allow-listed
attribute present in both the entity's scene spec and the observed
attributes, compare via `compare_colors` when the name ends in `_color`
(with `is_xy_color` iff the name is `xy_color`) and via `compare_values`
otherwise; a mismatch returns `False`, attributes missing on either side
are skipped, and an exception from `compare_colors` propagates (`none`). -/
def checkAttrsLoop (tol : Rat) (espec : List (String × Value))
    (obsAttrs : List (String × Value)) : List String → Option Tri
  | [] => some .matched
  | attr :: rest =>
    match alookup attr espec, alookup attr obsAttrs with
    | some sv, some ov =>
      match (if strEndsWith attr "_color"
             then compare_colors tol sv ov (attr == "xy_color")
             else some (compare_values tol sv ov)) with
      | none => none
      | some m =>
        if m then checkAttrsLoop tol espec obsAttrs rest else some .notMatched
    | _, _ => checkAttrsLoop tol espec obsAttrs rest

/-- `Scene.check_state` for one entity: `None` observation returns `False`;
an `unavailable` state with `ignore_unavailable` returns `None` (Unknown);
a failed state compare returns `False`; then the allow-listed attributes for
the observation's domain are checked with `checkAttrsLoop`; otherwise `True`.
The result is `none` when the Python code would raise (a missing `state`
key in the scene spec, or a `TypeError` out of `compare_colors`). -/
def check_state (tol : Rat) (ignore_unavailable : Bool)
    (espec : List (String × Value)) (new_state : Option Obs) : Option Tri :=
  match new_state with
  | none => some .notMatched
  | some obs =>
    if ignore_unavailable && pyEq obs.state (.str "unavailable") then some .unknown
    else
      match alookup "state" espec with
      | none => none
      | some target =>
        if !compare_values tol target obs.state then some .notMatched
        else
          match alookup obs.domain ATTRIBUTES_TO_CHECK with
          | none => some .matched
          | some attrs => checkAttrsLoop tol espec obs.attributes attrs

/-- A call to `self.hass.services.call`. -/
structure ServiceCall where
  domain : String
  service : String
  target : List String
  transition : Option Rat

/-- The mutable state of a `Scene` instance that the modelled methods read
and write: the per-entity scene spec (`self.entities`, an ordered mapping
entity_id to the target state/attribute dict), the option flags, the
per-entity caches `self.states` and `self.restore_states`, the toggle
`self._is_on`, and the fields `turn_on` uses. -/
structure Scene where
  entities : List (String × List (String × Value))
  number_tolerance : Rat
  ignore_unavailable : Bool
  restore_on_deactivate : Bool
  states : List (String × Option Bool)
  restore_states : List (String × Option Obs)
  is_on : Option Bool
  entity_id : Option String
  name : String
  transition_time : Rat

/-- The entity loop of `Scene.check_all_states`: fetch each entity's state,
store `check_state`'s result in `self.states`, and — when
`restore_on_deactivate` is off and the stored result is falsy (`False` or
`None`) — set `self._is_on = False` and return early. After a full pass,
collect the non-`None` cached results; the source assigns
`self._is_on = False` when that list is empty but immediately overwrites it
with `self._is_on = all(states)` (and `all([])` is `True`), which the
embedding reproduces. An exception from `check_state` propagates (`none`). -/
def checkAllGo (fetch : String → Option Obs) :
    List (String × List (String × Value)) → Scene → Option Scene
  | [], s =>
    let vals := (s.states.map Prod.snd).filterMap id
    let s1 := if vals.isEmpty then { s with is_on := some false } else s
    some { s1 with is_on := some (vals.all id) }
  | (eid, espec) :: rest, s =>
    match check_state s.number_tolerance s.ignore_unavailable espec (fetch eid) with
    | none => none
    | some r =>
      let s2 : Scene := { s with states := setKey eid r.toPy s.states }
      if !s2.restore_on_deactivate && pyFalsy r.toPy then
        some { s2 with is_on := some false }
      else checkAllGo fetch rest s2

/-- `Scene.check_all_states`: run the entity loop over `self.entities` in
declared order, with `fetch` standing for `self.hass.states.get`. -/
def check_all_states (fetch : String → Option Obs) (s : Scene) : Option Scene :=
  checkAllGo fetch s.entities s

/-- `Scene.store_entity_state`: `self.restore_states[entity_id] = state`. -/
def store_entity_state (s : Scene) (eid : String) (state : Option Obs) : Scene :=
  { s with restore_states := setKey eid state s.restore_states }

/-- The cache effect of `Scene.update_callback`: it stores the event's OLD
state into `self.restore_states` (the debounce/schedule_update that may
follow is external scheduling and touches neither cache). `self.states` is
not written here. -/
def update_callback (s : Scene) (eid : String) (old_state : Option Obs)
    (_new_state : Option Obs) : Scene :=
  store_entity_state s eid old_state

/-- The outcome of a call to `Scene.turn_on`: whether it raised, the scene
state afterwards, and the service calls it made. -/
structure TurnOnResult where
  raised : Bool
  scene : Scene
  calls : List ServiceCall

/-- `Scene.turn_on`: when `self._entity_id is None` the method raises before
doing anything else (building the error message itself raises `TypeError`,
since it concatenates `None` onto a string); otherwise it calls
`scene.turn_on` with the transition time and sets `self._is_on = True`. -/
def turn_on (s : Scene) : TurnOnResult :=
  match s.entity_id with
  | none => { raised := true, scene := s, calls := [] }
  | some eid =>
    { raised := false
      scene := { s with is_on := some true }
      calls := [{ domain := "scene", service := "turn_on", target := [eid],
                  transition := some s.transition_time }] }

/-! ## Lemmas about the value comparators -/

theorem alookup_setKey_ne {α : Type} {k k' : String} (v : α) (l : List (String × α))
    (h : k ≠ k') : alookup k (setKey k' v l) = alookup k l := by
  induction l with
  | nil => simp [setKey, alookup, h, Ne.symm h]
  | cons hd tl ih =>
    obtain ⟨k0, v0⟩ := hd
    by_cases h0 : k0 = k'
    · subst h0
      simp [setKey, alookup, h, Ne.symm h]
    · simp [setKey, alookup, h0, ih]

/-- Unfolding of `compare_dicts` as the one-directional containment
predicate: every binding of the first dict must have a
`compare_values`-equal binding in the second. -/
theorem compare_dicts_iff (tol : Rat) (a b : List (String × Value)) :
    compare_dicts tol a b = true ↔
      ∀ kv ∈ a, ∃ v2, alookup kv.1 b = some v2 ∧ compare_values tol kv.2 v2 = true := by
  induction a with
  | nil => simp [compare_dicts]
  | cons hd tl ih =>
    obtain ⟨k, v⟩ := hd
    cases h : alookup k b with
    | none =>
      simp only [compare_dicts, h]
      constructor
      · intro hfalse; exact absurd hfalse (by simp)
      · intro hall
        obtain ⟨v2, hv2, -⟩ := hall (k, v) (List.mem_cons_self _ _)
        simp [h] at hv2
    | some v2 =>
      simp only [compare_dicts, h, Bool.and_eq_true, ih]
      constructor
      · rintro ⟨hv, htl⟩ kv hkv
        rcases List.mem_cons.mp hkv with rfl | hkv'
        · exact ⟨v2, h, hv⟩
        · exact htl kv hkv'
      · intro hall
        refine ⟨?_, fun kv hkv => hall kv (List.mem_cons_of_mem _ hkv)⟩
        obtain ⟨v2', hv2', hcmp⟩ := hall (k, v) (List.mem_cons_self _ _)
        rw [h] at hv2'
        injection hv2' with hv2'
        exact hv2' ▸ hcmp

/-- Unfolding of `compare_lists` as element-wise comparison over the
zipped prefix of the two lists. -/
theorem compare_lists_eq_zip (tol : Rat) (l1 l2 : List Value) :
    compare_lists tol l1 l2 = (l1.zip l2).all (fun p => compare_values tol p.1 p.2) := by
  induction l1 generalizing l2 with
  | nil => simp [compare_lists]
  | cons v1 t1 ih =>
    cases l2 with
    | nil => simp [compare_lists]
    | cons v2 t2 => simp [compare_lists, ih]

/-! ## Well-formed values

`Value.dict` models a Python dict as an ordered association list; actual
Python dicts cannot repeat a key, so "well-formed" values are those whose
dicts (recursively) have pairwise distinct keys. -/

/-- Pairwise distinctness of a key list. -/
def distinctKeys : List String → Bool
  | [] => true
  | k :: rest => !(rest.contains k) && distinctKeys rest

mutual

/-- A value all of whose nested dicts have distinct keys. -/
def wfV : Value → Bool
  | .str _ => true
  | .num _ => true
  | .null => true
  | .list l => wfL l
  | .dict d => distinctKeys (d.map Prod.fst) && wfD d

/-- `wfV` on every element of a list. -/
def wfL : List Value → Bool
  | [] => true
  | v :: rest => wfV v && wfL rest

/-- `wfV` on every value of an association list. -/
def wfD : List (String × Value) → Bool
  | [] => true
  | kv :: rest => wfV kv.2 && wfD rest

end

theorem wfL_mem {l : List Value} (h : wfL l = true) {v : Value} (hv : v ∈ l) :
    wfV v = true := by
  induction l with
  | nil => cases hv
  | cons w tl ih =>
    simp only [wfL, Bool.and_eq_true] at h
    rcases List.mem_cons.mp hv with rfl | hv'
    · exact h.1
    · exact ih h.2 hv'

theorem wfD_mem {d : List (String × Value)} (h : wfD d = true) {kv : String × Value}
    (hv : kv ∈ d) : wfV kv.2 = true := by
  induction d with
  | nil => cases hv
  | cons w tl ih =>
    simp only [wfD, Bool.and_eq_true] at h
    rcases List.mem_cons.mp hv with rfl | hv'
    · exact h.1
    · exact ih h.2 hv'

theorem alookup_self_of_distinct {α : Type} {k : String} {v : α} {d : List (String × α)}
    (hd : distinctKeys (d.map Prod.fst) = true) (hmem : (k, v) ∈ d) :
    alookup k d = some v := by
  induction d with
  | nil => cases hmem
  | cons hd' tl ih =>
    obtain ⟨k', v'⟩ := hd'
    simp only [List.map_cons, distinctKeys, Bool.and_eq_true, Bool.not_eq_true'] at hd
    rcases List.mem_cons.mp hmem with heq | hmem'
    · injection heq with h1 h2
      subst h1; subst h2
      simp [alookup]
    · have hk : k' ≠ k := by
        intro h
        subst h
        have hc : (tl.map Prod.fst).contains k' = true :=
          List.elem_iff.mpr (List.mem_map.mpr ⟨(k', v), hmem', rfl⟩)
        simp [hc] at hd
        exact hd.1 v hmem'
      simp [alookup, hk, ih hd.2 hmem']

theorem compare_lists_self {l : List Value} (h : ∀ v ∈ l, compare_values 0 v v = true) :
    compare_lists 0 l l = true := by
  induction l with
  | nil => simp [compare_lists]
  | cons v tl ih =>
    simp only [compare_lists, Bool.and_eq_true]
    exact ⟨h v (List.mem_cons_self _ _), ih (fun w hw => h w (List.mem_cons_of_mem _ hw))⟩

theorem compare_dicts_self {d : List (String × Value)}
    (hdk : distinctKeys (d.map Prod.fst) = true)
    (h : ∀ kv ∈ d, compare_values 0 kv.2 kv.2 = true) :
    compare_dicts 0 d d = true := by
  rw [compare_dicts_iff]
  intro kv hkv
  exact ⟨kv.2, alookup_self_of_distinct hdk hkv, h kv hkv⟩

theorem compare_values_self_aux :
    ∀ (n : Nat) (a : Value), sizeOf a ≤ n → wfV a = true → compare_values 0 a a = true := by
  intro n
  induction n with
  | zero =>
    intro a ha _
    exfalso
    cases a <;> simp at ha
  | succ n ih =>
    intro a ha hwf
    cases a with
    | str s => simp [compare_values, pyEq]
    | num q => simp [compare_values, compare_numbers]
    | null => simp [compare_values, pyEq]
    | list l =>
      have hsz : sizeOf l ≤ n := by simp at ha; omega
      simp only [compare_values]
      refine compare_lists_self (fun v hv => ih v ?_ (wfL_mem hwf hv))
      have := List.sizeOf_lt_of_mem hv
      omega
    | dict d =>
      have hsz : sizeOf d ≤ n := by simp at ha; omega
      simp only [compare_values]
      simp only [wfV, Bool.and_eq_true] at hwf
      refine compare_dicts_self hwf.1 (fun kv hkv => ih kv.2 ?_ (wfD_mem hwf.2 hkv))
      have h1 := List.sizeOf_lt_of_mem hkv
      obtain ⟨k, v⟩ := kv
      simp at h1 ⊢
      omega

/-! ## Lemmas about the aggregation pass -/

theorem pyFalsy_toPy_of_ne_matched {r : Tri} (h : r ≠ Tri.matched) :
    pyFalsy r.toPy = true := by
  cases r with
  | matched => exact absurd rfl h
  | notMatched => rfl
  | unknown => rfl

/-- `checkAllGo` never writes `restore_states`: the `last_observation` cache
is untouched by a full scan. -/
theorem checkAllGo_restore_states (f : String → Option Obs) :
    ∀ (ents : List (String × List (String × Value))) (s s' : Scene),
      checkAllGo f ents s = some s' → s'.restore_states = s.restore_states := by
  intro ents
  induction ents with
  | nil =>
    intro s s' h
    simp only [checkAllGo] at h
    split at h <;> (injection h with h; subst h; rfl)
  | cons hd tl ih =>
    obtain ⟨eid, espec⟩ := hd
    intro s s' h
    simp only [checkAllGo] at h
    cases hc : check_state s.number_tolerance s.ignore_unavailable espec (f eid) with
    | none => rw [hc] at h; cases h
    | some r =>
      rw [hc] at h
      dsimp only at h
      split at h
      · injection h with h; subst h; rfl
      · exact (ih _ _ h).trans rfl

/-- The cumulative effect on `self.states` of a prefix of entities that all
matched: each gets `True` written in order. -/
def applyMatched (pre : List (String × List (String × Value))) (s : Scene) : Scene :=
  match pre with
  | [] => s
  | (eid, _) :: rest => applyMatched rest { s with states := setKey eid (some true) s.states }

theorem applyMatched_fields (pre : List (String × List (String × Value))) (s : Scene) :
    (applyMatched pre s).number_tolerance = s.number_tolerance ∧
    (applyMatched pre s).ignore_unavailable = s.ignore_unavailable ∧
    (applyMatched pre s).restore_on_deactivate = s.restore_on_deactivate := by
  induction pre generalizing s with
  | nil => exact ⟨rfl, rfl, rfl⟩
  | cons hd tl ih =>
    obtain ⟨eid, espec⟩ := hd
    simpa only [applyMatched] using ih { s with states := setKey eid (some true) s.states }

theorem alookup_applyMatched_states {k : String}
    (pre : List (String × List (String × Value))) (s : Scene)
    (hk : k ∉ pre.map Prod.fst) :
    alookup k (applyMatched pre s).states = alookup k s.states := by
  induction pre generalizing s with
  | nil => rfl
  | cons hd tl ih =>
    obtain ⟨eid, espec⟩ := hd
    simp only [List.map_cons, List.mem_cons, not_or] at hk
    simp only [applyMatched]
    rw [ih _ hk.2]
    exact alookup_setKey_ne _ _ hk.1

/-- Scanning a prefix of all-matching entities just records `True` for each
of them and continues: the short-circuit never fires on a Matched result. -/
theorem checkAllGo_matched_run (f : String → Option Obs)
    (pre : List (String × List (String × Value))) :
    ∀ (rest : List (String × List (String × Value))) (s : Scene),
      (∀ p ∈ pre,
        check_state s.number_tolerance s.ignore_unavailable p.2 (f p.1) = some Tri.matched) →
      checkAllGo f (pre ++ rest) s = checkAllGo f rest (applyMatched pre s) := by
  induction pre with
  | nil => intro rest s _; rfl
  | cons hd tl ih =>
    obtain ⟨eid, espec⟩ := hd
    intro rest s hpre
    have hhd := hpre (eid, espec) (List.mem_cons_self _ _)
    simp only [List.cons_append, checkAllGo, hhd]
    have hcond : (!({ s with states := setKey eid (Tri.matched.toPy) s.states } :
        Scene).restore_on_deactivate && pyFalsy Tri.matched.toPy) = false := by
      simp [Tri.toPy, pyFalsy]
    rw [hcond]
    simp only [Bool.false_eq_true, if_false, applyMatched]
    exact ih rest _ (fun p hp => hpre p (List.mem_cons_of_mem _ hp))

/-! ## The claims -/

/-- Claim C2 (code bug): `compare_colors` is claimed never to raise, with
any non-Sequence side yielding `false` — but the source guards only the
case where NEITHER side is a list/tuple (`not isinstance(color1, ...) and
not isinstance(color2, ...)`), so with exactly one non-sequence side the
call falls through to `zip`, which raises `TypeError` on the non-iterable
number (modelled as `none`), in both argument orders. -/
theorem C2_compare_colors_raises :
    compare_colors 3 (Value.num 5) (Value.list [Value.num 255, Value.num 0, Value.num 0]) false
      = none ∧
    compare_colors 3 (Value.list [Value.num 255, Value.num 0, Value.num 0]) (Value.num 5) false
      = none :=
  ⟨rfl, rfl⟩

/-- Claim C5 (code bug): `check_state` is claimed to be total — returning
NotMatched when an allow-listed attribute fails its compare — but when a
color attribute has a non-sequence value on exactly one side the inherited
`compare_colors` bug raises `TypeError` out of `check_state` (modelled as
`none`) instead of returning NotMatched: here the state matches, and the
allow-listed `rgb_color` is `5` in the scene spec and `[1, 2, 3]` in the
observation. -/
theorem C5_check_state_raises :
    check_state 3 false [("state", Value.str "on"), ("rgb_color", Value.num 5)]
      (some { state := Value.str "on",
              attributes := [("rgb_color", Value.list [Value.num 1, Value.num 2, Value.num 3])],
              domain := "light" }) = none := by
  simp [check_state, checkAttrsLoop, compare_values, pyEq, alookup, ATTRIBUTES_TO_CHECK,
    compare_colors, isNull, isSeq, iterElems, strEndsWith, List.isSuffixOf]

/-- Claim C6: mapping comparison is one-directional containment — for all
mappings `a` and `b`, `compare_values t (dict a) (dict b)` is true iff every
binding of `a` has an `alookup`-present, `compare_values`-equal binding in
`b`, keys only in `b` being ignored; and concretely
`equal({"a":1}, {"a":1,"b":2}, 0)` is true while
`equal({"a":1,"b":2}, {"a":1}, 0)` is false, so `equal` is not symmetric
for mappings. -/
theorem C6_dict_containment :
    (∀ (t : Rat) (a b : List (String × Value)),
      compare_values t (Value.dict a) (Value.dict b) = true ↔
        ∀ kv ∈ a, ∃ v2, alookup kv.1 b = some v2 ∧ compare_values t kv.2 v2 = true) ∧
    compare_values 0 (Value.dict [("a", Value.num 1)])
      (Value.dict [("a", Value.num 1), ("b", Value.num 2)]) = true ∧
    compare_values 0 (Value.dict [("a", Value.num 1), ("b", Value.num 2)])
      (Value.dict [("a", Value.num 1)]) = false := by
  refine ⟨fun t a b => ?_, ?_, ?_⟩
  · simpa only [compare_values] using compare_dicts_iff t a b
  · simp [compare_values, compare_dicts, compare_numbers, alookup]
  · simp [compare_values, compare_dicts, compare_numbers, alookup]

/-- Claim C7: sequence comparison only looks at the zipped prefix up to the
shorter sequence's length — `compare_values t (list l1) (list l2)` equals
the element-wise comparison over `l1.zip l2`, so trailing elements of the
longer side are ignored; concretely `equal([1,2,3], [1,2], 0)` is true. -/
theorem C7_list_zip :
    (∀ (t : Rat) (l1 l2 : List Value),
      compare_values t (Value.list l1) (Value.list l2) =
        (l1.zip l2).all (fun p => compare_values t p.1 p.2)) ∧
    compare_values 0 (Value.list [Value.num 1, Value.num 2, Value.num 3])
      (Value.list [Value.num 1, Value.num 2]) = true := by
  refine ⟨fun t l1 l2 => ?_, ?_⟩
  · simpa only [compare_values] using compare_lists_eq_zip t l1 l2
  · simp [compare_values, compare_lists, compare_numbers]

/-- Claim C8: `compare_values` is reflexive at zero tolerance for every
value shape — scalar, number, sequence, mapping, nested — where
well-formedness (`wfV`) only states that the association lists modelling
Python dicts have the pairwise-distinct keys an actual dict always has. -/
theorem C8_compare_values_refl (a : Value) (h : wfV a = true) :
    compare_values 0 a a = true :=
  compare_values_self_aux (sizeOf a) a le_rfl h

/-- Witness for C8 at a concrete nested value containing every shape. -/
theorem C8_witness :
    wfV (Value.dict [("a", Value.list [Value.num 1, Value.str "x"]), ("b", Value.null)]) = true ∧
    compare_values 0
      (Value.dict [("a", Value.list [Value.num 1, Value.str "x"]), ("b", Value.null)])
      (Value.dict [("a", Value.list [Value.num 1, Value.str "x"]), ("b", Value.null)]) = true := by
  have hwf : wfV (Value.dict [("a", Value.list [Value.num 1, Value.str "x"]),
      ("b", Value.null)]) = true := by
    simp [wfV, wfL, wfD, distinctKeys]
  exact ⟨hwf, C8_compare_values_refl _ hwf⟩

/-- Claim C9: `turn_on` on a scene whose `entity_id` could not be resolved
raises (the raise even happens while concatenating `None` into the error
message), the exception propagates, the scene's on/off state is unchanged,
and no service call is made. -/
theorem C9_turn_on_no_entity (s : Scene) (h : s.entity_id = none) :
    (turn_on s).raised = true ∧ (turn_on s).scene = s ∧ (turn_on s).calls = [] := by
  simp [turn_on, h]

/-- A scene whose `entity_id` could not be resolved. -/
def scene_c9 : Scene :=
  { entities := [("light.l", [("state", Value.str "on")])]
    number_tolerance := 3
    ignore_unavailable := false
    restore_on_deactivate := true
    states := [("light.l", some false)]
    restore_states := [("light.l", none)]
    is_on := some false
    entity_id := none
    name := "s"
    transition_time := 0 }

/-- Witness for C9 on `scene_c9`. -/
theorem C9_witness :
    (turn_on scene_c9).raised = true ∧ (turn_on scene_c9).scene = scene_c9 ∧
      (turn_on scene_c9).calls = [] :=
  C9_turn_on_no_entity scene_c9 rfl

/-- A one-entity scene with `restore_on_deactivate` on and
`ignore_unavailable` on, fresh from `__init__` (cached states `False`). -/
def scene_c1 : Scene :=
  { entities := [("light.l", [("state", Value.str "on")])]
    number_tolerance := 3
    ignore_unavailable := true
    restore_on_deactivate := true
    states := [("light.l", some false)]
    restore_states := [("light.l", none)]
    is_on := none
    entity_id := some "scene.s"
    name := "s"
    transition_time := 0 }

/-- A fetch collaborator under which every entity is `unavailable`. -/
def fetch_c1 : String → Option Obs :=
  fun _ => some { state := Value.str "unavailable", attributes := [], domain := "light" }

/-- Claim C1 (code bug): after a full, non-short-circuited pass in which
every entity's result is Unknown, the claim — and the function's own
docstring ("if all entities are unavailable, the scene is off") — says the
verdict is off; but the source's `if not states: self._is_on = False` is
immediately overwritten by `self._is_on = all(states)`, and `all([])` is
`True`, so the scene ends ON: here the single entity's cached result is
`None` (Unknown) and yet `_is_on` is `True`. -/
theorem C1_all_unknown_verdict_on :
    (check_all_states fetch_c1 scene_c1).map Scene.states = some [("light.l", none)] ∧
    (check_all_states fetch_c1 scene_c1).map Scene.is_on = some (some true) :=
  ⟨rfl, rfl⟩

/-- A two-entity scene with `restore_on_deactivate` off and
`ignore_unavailable` on. -/
def scene_c10 : Scene :=
  { entities := [("light.a", [("state", Value.str "on")]),
                 ("light.b", [("state", Value.str "on")])]
    number_tolerance := 3
    ignore_unavailable := true
    restore_on_deactivate := false
    states := [("light.a", some false), ("light.b", some false)]
    restore_states := [("light.a", none), ("light.b", none)]
    is_on := none
    entity_id := some "scene.s"
    name := "s"
    transition_time := 0 }

/-- A fetch under which `light.a` is unavailable and `light.b` is absent. -/
def fetch_c10 : String → Option Obs :=
  fun eid =>
    if eid == "light.a"
    then some { state := Value.str "unavailable", attributes := [], domain := "light" }
    else none

/-- Claim C10: in `check_all_states` with `restore_on_deactivate` false, an
Unknown (`None`) result short-circuits exactly like NotMatched — Python
`not None` is `True` — so the scan stops at that entity, the verdict is
off, and only that entity's cached result was written (later entities keep
their previous cached value, any key other than the failing one reads the
same as before). -/
theorem C10_unknown_short_circuits (f : String → Option Obs) (s : Scene)
    (eid : String) (espec : List (String × Value))
    (rest : List (String × List (String × Value)))
    (hent : s.entities = (eid, espec) :: rest)
    (hres : s.restore_on_deactivate = false)
    (hchk : check_state s.number_tolerance s.ignore_unavailable espec (f eid)
      = some Tri.unknown) :
    check_all_states f s =
      some { s with states := setKey eid Tri.unknown.toPy s.states, is_on := some false } ∧
    ∀ p ∈ rest, p.1 ≠ eid →
      alookup p.1 (setKey eid Tri.unknown.toPy s.states) = alookup p.1 s.states := by
  constructor
  · have hstep : checkAllGo f ((eid, espec) :: rest) s =
        some { s with states := setKey eid Tri.unknown.toPy s.states, is_on := some false } := by
      simp only [checkAllGo, hchk]
      have hcond : (!({ s with states := setKey eid Tri.unknown.toPy s.states} :
          Scene).restore_on_deactivate && pyFalsy Tri.unknown.toPy) = true := by
        show (!s.restore_on_deactivate && pyFalsy Tri.unknown.toPy) = true
        rw [hres]
        rfl
      rw [hcond]
      simp
    unfold check_all_states
    conv_lhs => rw [hent]
    exact hstep
  · intro p _ hne
    exact alookup_setKey_ne _ _ hne

/-- Witness for C10: the unavailable-with-ignore first entity of
`scene_c10` stops the scan with verdict off, and the second entity's
cached result is untouched. -/
theorem C10_witness :
    check_all_states fetch_c10 scene_c10 =
      some { scene_c10 with
             states := setKey "light.a" Tri.unknown.toPy scene_c10.states,
             is_on := some false } ∧
    alookup "light.b" (setKey "light.a" Tri.unknown.toPy scene_c10.states)
      = alookup "light.b" scene_c10.states := by
  have h := C10_unknown_short_circuits fetch_c10 scene_c10 "light.a"
    [("state", Value.str "on")] [("light.b", [("state", Value.str "on")])] rfl rfl rfl
  exact ⟨h.1, h.2 ("light.b", [("state", Value.str "on")])
    (List.mem_cons_self _ _) (by decide)⟩

/-- Claim C4: with `restore_on_deactivate` false, if the entities scanned so
far all matched and the current entity's result is not Matched, the loop
stops at that entity: the verdict is off and the cached per-entity results
of all subsequent entities are left exactly as they were before the pass
(the entity ids are pairwise distinct, as Python dict keys are). -/
theorem C4_short_circuit (f : String → Option Obs) (s : Scene)
    (pre : List (String × List (String × Value))) (eid : String)
    (espec : List (String × Value)) (post : List (String × List (String × Value)))
    (r : Tri)
    (hent : s.entities = pre ++ (eid, espec) :: post)
    (hres : s.restore_on_deactivate = false)
    (hpre : ∀ p ∈ pre,
      check_state s.number_tolerance s.ignore_unavailable p.2 (f p.1) = some Tri.matched)
    (hr : check_state s.number_tolerance s.ignore_unavailable espec (f eid) = some r)
    (hnm : r ≠ Tri.matched)
    (hnd : ((pre ++ (eid, espec) :: post).map Prod.fst).Nodup) :
    ∃ s', check_all_states f s = some s' ∧ s'.is_on = some false ∧
      ∀ p ∈ post, alookup p.1 s'.states = alookup p.1 s.states := by
  have hfields := applyMatched_fields pre s
  have hstep : checkAllGo f (pre ++ (eid, espec) :: post) s =
      some { applyMatched pre s with
             states := setKey eid r.toPy (applyMatched pre s).states,
             is_on := some false } := by
    rw [checkAllGo_matched_run f pre _ s hpre]
    have hchk : check_state (applyMatched pre s).number_tolerance
        (applyMatched pre s).ignore_unavailable espec (f eid) = some r := by
      rw [hfields.1, hfields.2.1]
      exact hr
    simp only [checkAllGo, hchk]
    have hcond : (!({ applyMatched pre s with
        states := setKey eid r.toPy (applyMatched pre s).states } :
        Scene).restore_on_deactivate && pyFalsy r.toPy) = true := by
      show (!(applyMatched pre s).restore_on_deactivate && pyFalsy r.toPy) = true
      rw [hfields.2.2, hres, pyFalsy_toPy_of_ne_matched hnm]
      rfl
    rw [hcond]
    simp
  refine ⟨{ applyMatched pre s with
            states := setKey eid r.toPy (applyMatched pre s).states,
            is_on := some false }, ?_, rfl, ?_⟩
  · unfold check_all_states
    conv_lhs => rw [hent]
    exact hstep
  · intro p hp
    rw [List.map_append, List.map_cons, List.nodup_append] at hnd
    have hp1 : p.1 ∈ post.map Prod.fst := List.mem_map.mpr ⟨p, hp, rfl⟩
    have hne : p.1 ≠ eid := by
      intro h
      exact (List.nodup_cons.mp hnd.2.1).1 (h ▸ hp1)
    have hnpre : p.1 ∉ pre.map Prod.fst := by
      intro h
      exact hnd.2.2 h (List.mem_cons_of_mem _ hp1)
    show alookup p.1 (setKey eid r.toPy (applyMatched pre s).states) = alookup p.1 s.states
    rw [alookup_setKey_ne _ _ hne]
    exact alookup_applyMatched_states pre s hnpre

/-- A three-entity scene with `restore_on_deactivate` off: first entity
matches, second does not, third is after the short-circuit point. -/
def scene_c4 : Scene :=
  { entities := [("light.a", [("state", Value.str "on")]),
                 ("light.b", [("state", Value.str "on")]),
                 ("light.c", [("state", Value.str "on")])]
    number_tolerance := 3
    ignore_unavailable := false
    restore_on_deactivate := false
    states := [("light.a", some true), ("light.b", some true), ("light.c", some true)]
    restore_states := [("light.a", none), ("light.b", none), ("light.c", none)]
    is_on := some true
    entity_id := some "scene.s"
    name := "s"
    transition_time := 0 }

/-- A fetch under which `light.a` is on and every other entity is absent. -/
def fetch_c4 : String → Option Obs :=
  fun eid =>
    if eid == "light.a"
    then some { state := Value.str "on", attributes := [], domain := "light" }
    else none

/-- Witness for C4 on `scene_c4`: the first entity matches, the second is
NotMatched, the scan stops with verdict off, and the third entity's cached
result still reads its pre-pass value `True`. -/
theorem C4_witness :
    scene_c4.restore_on_deactivate = false ∧
    check_state scene_c4.number_tolerance scene_c4.ignore_unavailable
      [("state", Value.str "on")] (fetch_c4 "light.b") = some Tri.notMatched ∧
    (check_all_states fetch_c4 scene_c4).map Scene.is_on = some (some false) ∧
    (check_all_states fetch_c4 scene_c4).bind
      (fun s' => alookup "light.c" s'.states) = some (some true) := by
  have hpre : ∀ p ∈ [("light.a", [("state", Value.str "on")])],
      check_state scene_c4.number_tolerance scene_c4.ignore_unavailable p.2 (fetch_c4 p.1)
        = some Tri.matched := by
    intro p hp
    simp only [List.mem_singleton] at hp
    subst hp
    simp [check_state, fetch_c4, compare_values, pyEq, alookup, ATTRIBUTES_TO_CHECK,
      checkAttrsLoop, scene_c4]
  obtain ⟨s', h1, h2, h3⟩ := C4_short_circuit fetch_c4 scene_c4
    [("light.a", [("state", Value.str "on")])] "light.b" [("state", Value.str "on")]
    [("light.c", [("state", Value.str "on")])] Tri.notMatched rfl rfl hpre rfl
    (by decide) (by decide)
  refine ⟨rfl, rfl, ?_, ?_⟩
  · rw [h1]
    simp [h2]
  · rw [h1]
    show alookup "light.c" s'.states = some (some true)
    exact (h3 ("light.c", [("state", Value.str "on")]) (List.mem_singleton.mpr rfl)).trans rfl

/-- A one-entity scene fresh from `__init__` (cached states `False`, no
stored observations), with `restore_on_deactivate` on. -/
def scene_c3 : Scene :=
  { entities := [("light.l", [("state", Value.str "on")])]
    number_tolerance := 3
    ignore_unavailable := false
    restore_on_deactivate := true
    states := [("light.l", some false)]
    restore_states := [("light.l", none)]
    is_on := none
    entity_id := some "scene.s"
    name := "s"
    transition_time := 0 }

/-- An observation with state `on` (it matches `scene_c3`'s entity spec). -/
def obs_c3_on : Obs := { state := Value.str "on", attributes := [], domain := "light" }

/-- An observation with state `off` (it does not match the spec). -/
def obs_c3_off : Obs := { state := Value.str "off", attributes := [], domain := "light" }

/-- A fetch under which every entity reads `off`. -/
def fetch_c3 : String → Option Obs := fun _ => some obs_c3_off

/-- The scene after a state-change event (old state `on`, new state `off`)
followed by the re-evaluation pass that the event schedules. -/
def scene_c3_after : Option Scene :=
  check_all_states fetch_c3
    (update_callback scene_c3 "light.l" (some obs_c3_on) (some obs_c3_off))

/-- Counterexample to claim C3: after an observation callback and a scan,
the cached `last_match` (`states`) of `light.l` is NotMatched (`False`,
from the live fetch reading `off`), while its cached `last_observation`
(`restore_states`) is the event's OLD state `on` — and comparing that
cached observation against the entity spec yields Matched. So `last_match`
is NOT the result of comparing `last_observation` against the spec, and
the two caches were written by different operations at different times. -/
theorem C3_counterexample :
    scene_c3_after.bind (fun s => alookup "light.l" s.states) = some (some false) ∧
    scene_c3_after.bind (fun s => alookup "light.l" s.restore_states)
      = some (some (some obs_c3_on)) ∧
    check_state scene_c3.number_tolerance scene_c3.ignore_unavailable
      [("state", Value.str "on")] (some obs_c3_on) = some Tri.matched := by
  refine ⟨?_, ?_, ?_⟩
  · simp [scene_c3_after, scene_c3, fetch_c3, update_callback, store_entity_state,
      check_all_states, checkAllGo, check_state, compare_values, pyEq, alookup, setKey,
      ATTRIBUTES_TO_CHECK, checkAttrsLoop, obs_c3_on, obs_c3_off, Tri.toPy, pyFalsy]
  · simp [scene_c3_after, scene_c3, fetch_c3, update_callback, store_entity_state,
      check_all_states, checkAllGo, check_state, compare_values, pyEq, alookup, setKey,
      ATTRIBUTES_TO_CHECK, checkAttrsLoop, obs_c3_on, obs_c3_off, Tri.toPy, pyFalsy]
  · simp [scene_c3, check_state, compare_values, pyEq, alookup, ATTRIBUTES_TO_CHECK,
      checkAttrsLoop, obs_c3_on]

/-- Claim C3 amended: the two per-entity caches are updated independently,
never together — the observation callback writes only `restore_states`
(setting the event's OLD state) and leaves `states` untouched, while a
`check_all_states` pass writes only `states` (from a live fetch) and
leaves `restore_states` untouched. -/
theorem C3_caches_updated_independently :
    (∀ (s : Scene) (eid : String) (old_state new_state : Option Obs),
      (update_callback s eid old_state new_state).states = s.states ∧
      (update_callback s eid old_state new_state).restore_states
        = setKey eid old_state s.restore_states) ∧
    (∀ (f : String → Option Obs) (s s' : Scene),
      check_all_states f s = some s' → s'.restore_states = s.restore_states) :=
  ⟨fun _ _ _ _ => ⟨rfl, rfl⟩,
   fun f s s' h => checkAllGo_restore_states f s.entities s s' h⟩

/-- Witness for the amended C3 on `scene_c3`: the callback leaves `states`
alone, and a full scan leaves `restore_states` alone. -/
theorem C3_witness :
    (update_callback scene_c3 "light.l" (some obs_c3_on) (some obs_c3_off)).states
      = scene_c3.states ∧
    (check_all_states fetch_c3 scene_c3).map Scene.restore_states
      = some scene_c3.restore_states := by
  constructor
  · exact (C3_caches_updated_independently.1 scene_c3 "light.l"
      (some obs_c3_on) (some obs_c3_off)).1
  · have hev : check_all_states fetch_c3 scene_c3 =
        some { scene_c3 with states := [("light.l", some false)], is_on := some false } := by
      simp [scene_c3, fetch_c3, check_all_states, checkAllGo, check_state, compare_values,
        pyEq, alookup, setKey, ATTRIBUTES_TO_CHECK, checkAttrsLoop, obs_c3_off, Tri.toPy,
        pyFalsy]
    rw [hev]
    exact congrArg some
      (C3_caches_updated_independently.2 fetch_c3 scene_c3 _ hev)

end StatefulScenes
